import Mathlib

/-!
Verification of the browser-testing DSL repository against its specification.

The development shallowly embeds the two source files:
* `src/unnamed/part_000` — the `TestSettings` interface, `DEFAULT_STEP_WAIT_SECONDS`,
  `DEFAULT_ACTION_WAIT_SECONDS` and `normalizeSettings` (runtime settings), together
  with the documentation-generator `Parser` (`NodeLike`, `visit`, `walk`, the visitor
  dispatch table and the visitor bodies);
* `src/packages/element/src/page/ElementHandle.ts` — the `ElementHandle` class, the
  `wrapDescriptiveError` decorator and the `domError` interpreter.

JavaScript numbers that the claims exercise are embedded as rationals (`ℚ`): every
constant involved (`30`, `0.5`, `5`, `60`, `1e3`) and every operation (`/ 1000`,
comparisons) is exact on `ℚ`.  Optional fields become `Option`; promises that the
code awaits become plain values; promises the code forgets to await are modelled
explicitly as objects (see `PendingPromise`); fallible operations return `Except`.
-/

/-! ## Settings (`src/unnamed/part_000`, lines 22-23 and 216-239) -/

/-- `DEFAULT_STEP_WAIT_SECONDS = 5` (line 22). -/
def DEFAULT_STEP_WAIT_SECONDS : ℚ := 5

/-- `DEFAULT_ACTION_WAIT_SECONDS = 0.5` (line 23). -/
def DEFAULT_ACTION_WAIT_SECONDS : ℚ := 0.5

/-- The `TestSettings` interface: the three numeric delay settings that
`normalizeSettings` reads and writes, plus representative further fields
(`duration`, `userAgent`) used to observe that the function leaves the rest of the
object alone.  `none` models an absent (`undefined`) field. -/
structure TestSettings where
  waitTimeout : Option ℚ
  actionDelay : Option ℚ
  stepDelay : Option ℚ
  duration : Option ℚ
  userAgent : Option String
deriving DecidableEq

/-- First block of `normalizeSettings` (lines 218-222):
`if (typeof settings.waitTimeout === 'number' && settings.waitTimeout > 1e3)`
divides by `1e3`, `else if (Number(settings.waitTimeout) === 0)` sets `30`.
When the field is absent, `Number(undefined)` is `NaN`, which is not `0`,
so nothing happens. -/
def normWaitTimeout (s : TestSettings) : TestSettings :=
  match s.waitTimeout with
  | some w =>
    if w > 1000 then { s with waitTimeout := some (w / 1000) }
    else if w = 0 then { s with waitTimeout := some 30 }
    else s
  | none => s

/-- Second block of `normalizeSettings` (lines 225-229): `actionDelay > 60` is
divided by `1e3`, `actionDelay` equal to `0` becomes `DEFAULT_ACTION_WAIT_SECONDS`. -/
def normActionDelay (s : TestSettings) : TestSettings :=
  match s.actionDelay with
  | some a =>
    if a > 60 then { s with actionDelay := some (a / 1000) }
    else if a = 0 then { s with actionDelay := some DEFAULT_ACTION_WAIT_SECONDS }
    else s
  | none => s

/-- Third block of `normalizeSettings` (lines 232-236): `stepDelay > 60` is divided
by `1e3`; when `stepDelay` is `0` the source assigns `settings.actionDelay =
DEFAULT_STEP_WAIT_SECONDS` (line 235) — it writes `actionDelay`, not `stepDelay`,
and the embedding reproduces that assignment faithfully. -/
def normStepDelay (s : TestSettings) : TestSettings :=
  match s.stepDelay with
  | some d =>
    if d > 60 then { s with stepDelay := some (d / 1000) }
    else if d = 0 then { s with actionDelay := some DEFAULT_STEP_WAIT_SECONDS }
    else s
  | none => s

/-- `normalizeSettings` (lines 216-239): the three blocks run in order on the same
settings object. -/
def normalizeSettings (s : TestSettings) : TestSettings :=
  normStepDelay (normActionDelay (normWaitTimeout s))

/-! ## Errors and the `wrapDescriptiveError` decorator
(`src/packages/element/src/page/ElementHandle.ts`, lines 23-73) -/

/-- JavaScript error values as the `ElementHandle` module produces and consumes
them.  `error` is a plain `Error` with a message; `typeError` is a runtime
`TypeError`; `documented` records the four arguments of `new DocumentedError(...)`
and `wrapUnhandled` the three arguments of `DocumentedError.wrapUnhandledError(...)`.
The `DocumentedError` class lives in `src/utils/DocumentedError`, which is not part
of this snapshot, so its constructors are embedded as free constructors that record
their arguments. -/
inductive JSError where
  | error (message : String)
  | typeError (message : String)
  | documented (message : String) (docBody : String) (callContext : String)
      (original : JSError)
  | wrapUnhandled (original : JSError) (message : String) (callContext : String)
deriving DecidableEq

/-- `err.message` for each error shape. -/
def jsMessage : JSError → String
  | JSError.error m => m
  | JSError.typeError m => m
  | JSError.documented m _ _ _ => m
  | JSError.wrapUnhandled _ m _ => m

/-- Whether `pat` occurs as a contiguous sublist of `l`
(the list-of-characters form of JavaScript `String.prototype.includes`). -/
def hasSubList : List Char → List Char → Bool
  | _, [] => true
  | [], _ :: _ => false
  | c :: cs, p :: ps => List.isPrefixOf (p :: ps) (c :: cs) || hasSubList cs (p :: ps)

/-- JavaScript `s.includes(pat)`. -/
def jsIncludes (s pat : String) : Bool :=
  hasSubList s.data pat.data

/-- An error interpreter as `wrapDescriptiveError` calls it (line 39):
arguments are the caught error, `this.toErrorString()`, the decorated property key
and the call context string. -/
abbrev ErrorInterpreter : Type := JSError → String → String → String → JSError

/-- The body that `wrapDescriptiveError(...interpreters)` installs around a method
(lines 27-44).  The underlying operation is a state transformer that either
returns a value or throws; the wrapper invokes it once, passes a success through
unchanged, and on failure evaluates `errorInterpreters[0](e, this, key, callCtx)`.
When the decorator was applied with no interpreter, `errorInterpreters[0]` is
`undefined` and calling it throws a `TypeError` from inside the catch block.
Call-time stack capture (lines 29-31, 41) has no observable effect here and is not
modelled. -/
def wrapCall {σ α : Type} (errorInterpreters : List ErrorInterpreter)
    (errorString propertyKey : String)
    (originalFn : σ → σ × Except JSError α) (s : σ) : σ × Except JSError α :=
  match originalFn s with
  | (s1, Except.ok v) => (s1, Except.ok v)
  | (s1, Except.error e) =>
    let callCtx := errorString ++ "." ++ propertyKey
    match errorInterpreters with
    | [] => (s1, Except.error (JSError.typeError "errorInterpreters[0] is not a function"))
    | interp :: _ => (s1, Except.error (interp e errorString propertyKey callCtx))

/-- The explanation body of the detached-node `DocumentedError` (lines 59-62). -/
def detachedBody (action : String) : String :=
  "The DOM node you tried to " ++ action ++
    " was no longer attached to the browser's DOM tree.\n\n  This may have been caused by:\n  - Changes to the DOM between the time you located the element and " ++
    action ++ "ed it."

/-- `domError(action)` (lines 48-73): the interpreter that turns a caught error into
a `DocumentedError`, with a dedicated message when the error message contains
`'Node is detached from document'`. -/
def domError (action : String) : ErrorInterpreter :=
  fun err targetErrorString _key callCtx =>
    if jsIncludes (jsMessage err) "Node is detached from document" then
      JSError.documented
        ("Unable to " ++ action ++ " " ++ targetErrorString ++ " as it is no longer in the DOM")
        (detachedBody action) callCtx err
    else
      JSError.wrapUnhandled err
        ("Unable to " ++ action ++ " selector " ++ targetErrorString) callCtx

/-- `ElementHandle.click` as decorated (lines 132-135):
`@wrapDescriptiveError(domError('click'))` around `this.element.click(options)`. -/
def clickCall {σ : Type} (errorString : String)
    (op : σ → σ × Except JSError Unit) : σ → σ × Except JSError Unit :=
  wrapCall [domError "click"] errorString "click" op

/-! ## The `ElementHandle` class (`ElementHandle.ts`, lines 79-349) -/

/-- The object `puppeteer`'s `boundingBox()` resolves to, or `null`. -/
structure BoundingBox where
  x : ℚ
  y : ℚ
  width : ℚ
  height : ℚ
deriving DecidableEq

/-- The underlying browser-automation handle (`PElementHandle`), reduced to the
observations the claims exercise: the `tagName` property (as `getProperty`
resolves it, `null` possible) and the result of `boundingBox()`. -/
structure PuppeteerHandle where
  tagName : Option String
  boundingBox : Option BoundingBox
deriving DecidableEq

/-- The `ElementHandle` wrapper (line 79-82): holds the underlying handle and an
`errorString` initialised to `'<element-handle>'`. -/
structure ElementHandle where
  element : PuppeteerHandle
  errorString : String
deriving DecidableEq

/-- `tagName()` (lines 215-217): `getProperty(this.element, 'tagName')`, awaited. -/
def ElementHandle.tagName (h : ElementHandle) : Option String :=
  h.element.tagName

/-- `find` (lines 112-114): resolves to the handle itself. -/
def ElementHandle.find {γ ν : Type} (h : ElementHandle) (_context : γ)
    (_node : Option ν) : Option ElementHandle :=
  some h

/-- `findMany` (lines 116-118): resolves to the one-element list `[this]`. -/
def ElementHandle.findMany {γ ν : Type} (h : ElementHandle) (_context : γ)
    (_node : Option ν) : List ElementHandle :=
  [h]

/-- JavaScript `String.prototype.toLowerCase()` on the ASCII strings the code
compares (tag names): lowercase each character. -/
def jsToLowerCase (s : String) : String :=
  String.mk (s.data.map Char.toLower)

/-- `isSelectable()` (lines 262-275), faithful to the branch structure: `OPTION`
returns `true`; inside the `INPUT` branch the code lowercases the tag name
(`'input'`) and compares it against `'checkbox'` and `'radio'`; everything else
returns `false`. -/
def ElementHandle.isSelectable (h : ElementHandle) : Bool :=
  match ElementHandle.tagName h with
  | none => false
  | some t =>
    if t = "OPTION" then true
    else if t = "INPUT" then
      let ty := jsToLowerCase t
      ty = "checkbox" || ty = "radio"
    else false

/-- Truthiness of a JavaScript object — in particular of a pending `Promise`:
always `true`. -/
def jsObjectTruthy : Bool := true

/-- A `Promise` that the code manipulates as a value without awaiting it. -/
structure PendingPromise where
  prop : String
deriving DecidableEq

/-- `isSelected()` (lines 245-260).  Two coercions are modelled exactly as the
source has them: `await !this.isSelectable()` negates the (truthy) promise object
before awaiting, so the guard is always `false`; and `let value = getProperty(...)`
is missing an `await`, so `value` is a pending promise and `!!value` is `true`. -/
def ElementHandle.isSelected (h : ElementHandle) : Except String Bool :=
  if !jsObjectTruthy then Except.error "Element is not selectable"
  else
    let propertyName := "selected"
    let tagName := ElementHandle.tagName h
    let ty : Option String := tagName.map String.toUpper
    let propertyName :=
      if ty = some "CHECKBOX" ∨ ty = some "RADIO" then "checked" else propertyName
    let value : PendingPromise := ⟨propertyName⟩
    Except.ok (jsObjectTruthy)

/-- `isDisplayed()` (lines 277-280): `box !== null`. -/
def ElementHandle.isDisplayed (h : ElementHandle) : Except String Bool :=
  Except.ok (h.element.boundingBox).isSome

/-- The `{width, height}` object `size()` resolves to. -/
structure SizeObj where
  width : ℚ
  height : ℚ
deriving DecidableEq

/-- The `{x, y}` object `location()` resolves to. -/
structure PointObj where
  x : ℚ
  y : ℚ
deriving DecidableEq

/-- `size()` (lines 307-313): `{width: 0, height: 0}` when the bounding box is
`null`, the box's width and height otherwise. -/
def ElementHandle.size (h : ElementHandle) : Except String SizeObj :=
  match h.element.boundingBox with
  | none => Except.ok ⟨0, 0⟩
  | some box => Except.ok ⟨box.width, box.height⟩

/-- `location()` (lines 319-325): `{x: 0, y: 0}` when the bounding box is `null`. -/
def ElementHandle.location (h : ElementHandle) : Except String PointObj :=
  match h.element.boundingBox with
  | none => Except.ok ⟨0, 0⟩
  | some box => Except.ok ⟨box.x, box.y⟩

/-! ## The documentation-generator `Parser` (`src/unnamed/part_000`, lines 317-671) -/

/-- A `@tag text` pair inside a typedoc comment (`comment.tags` elements). -/
structure CommentTag where
  tag : String
  text : String
deriving DecidableEq

/-- The typedoc `CommentObject` as the code reads it: `shortText`, `text` and
`tags`, each possibly absent. -/
structure CommentObject where
  shortText : Option String
  text : Option String
  tags : Option (List CommentTag)
deriving DecidableEq

/-- The typedoc `TypeObject` as the code reads it: only its `type` discriminator
is inspected (`type.type === 'reference'`); everything else is consumed opaquely
by the external `typeToString`. -/
structure TypeObject where
  type : String
deriving DecidableEq

/-- `ReflectionFlagsObject` fields destructured in `visitCallSignature`
(line 643); only `isOptional` is used, with default `false`. -/
structure ReflectionFlags where
  isOptional : Option Bool
  isExported : Option Bool
  isPublic : Option Bool
deriving DecidableEq

/-- A typedoc `Parameter` (lines 389-394) as destructured in
`visitCallSignature` (lines 640-647). -/
structure Parameter where
  name : String
  type : TypeObject
  flags : ReflectionFlags
  defaultValue : Option String
  comment : Option CommentObject
  originalName : Option String
deriving DecidableEq

/-- A typedoc `CallSignatureType` (lines 381-387) as used by `visitCallSignature`. -/
structure CallSignatureType where
  name : String
  parameters : Option (List Parameter)
  comment : Option CommentObject
deriving DecidableEq

/-- `NodeLike` (lines 340-347) extended with the `signatures` field of
`NodeWithCallSignature` (lines 396-398) that `visitMethod` reaches through the
`isCallableNode` guard.  (`implementationOf` feeds only a `console.log` and is
not modelled.) -/
inductive NodeLike where
  | mk : (name : String) → (kindString : Option String) →
      (children : Option (List NodeLike)) → (comment : Option CommentObject) →
      (signatures : Option (List CallSignatureType)) → NodeLike

def NodeLike.name : NodeLike → String
  | NodeLike.mk nm _ _ _ _ => nm

def NodeLike.kindString : NodeLike → Option String
  | NodeLike.mk _ ks _ _ _ => ks

def NodeLike.children : NodeLike → Option (List NodeLike)
  | NodeLike.mk _ _ cs _ _ => cs

def NodeLike.comment : NodeLike → Option CommentObject
  | NodeLike.mk _ _ _ cm _ => cm

def NodeLike.signatures : NodeLike → Option (List CallSignatureType)
  | NodeLike.mk _ _ _ _ sg => sg

/-- Modelled from the spec: the helpers the `Parser` imports from
`./utils/predicates`, `./utils/refs` and `./utils/typeHandling`
(`isClassReflection`, `isMethodReflection`, `isNodeOpaque`, `isNodeInternal`,
`isCallableNode`, `fixReferences`, `typeToString`), whose sources are not part of
this snapshot.  The spec treats them as opaque collaborators, so the model takes
them as parameters and every theorem below holds for all of them. -/
structure Externals where
  isClassReflection : NodeLike → Bool
  isMethodReflection : NodeLike → Bool
  isNodeOpaque : NodeLike → Bool
  isNodeInternal : NodeLike → Bool
  isCallableNode : NodeLike → Bool
  fixReferences : String → String
  typeToString : TypeObject → String

/-- One parameter record produced by `visitCallSignature`'s `parameters.map`
(lines 639-658). -/
structure ParamDoc where
  name : String
  type : String
  isOptional : Bool
  isReference : Bool
  defaultValue : Option String
  desc : String
deriving DecidableEq

/-- Modelled from the spec: one entry of an `APIDocument` (the class lives in the
docs package outside this snapshot).  The spec describes the document as
accumulating markdown-like sections, so each mutating method the `Parser` calls
(`section`, `comment`, `frontmatter`, `callSignature`) appends one entry. -/
inductive DocEntry where
  | sec (name : String)
  | comment (text : String)
  | frontmatter (meta : List (String × String))
  | callSignature (params : List ParamDoc)
deriving DecidableEq

/-- Modelled from the spec: an `APIDocument` is its list of accumulated entries. -/
abbrev APIDocument : Type := List DocEntry

/-- The `Parser` state the claims observe: the `documents` map (insertion-ordered
key/document pairs), the `indexExports` side of the pre-parsed index, and an
instrumentation `trace` recording the order in which `walk` visits nodes. -/
structure ParserState where
  documents : List (String × APIDocument)
  indexExports : List (String × String)
  trace : List String

/-- JavaScript `String.prototype.trim()`: drop whitespace from both ends. -/
def jsTrim (s : String) : String :=
  String.mk (((s.data.dropWhile Char.isWhitespace).reverse.dropWhile Char.isWhitespace).reverse)

/-- JavaScript truthiness of a nullable string (`null`, `undefined` and `''` are
falsy). -/
def strTruthy : Option String → Bool
  | none => false
  | some s => s ≠ ""

/-- JavaScript object property assignment `meta[k] = v` on an insertion-ordered
record: overwrite in place if the key exists, append otherwise. -/
def jsSet : List (String × String) → String → String → List (String × String)
  | [], k, v => [(k, v)]
  | (k1, v1) :: rest, k, v =>
    if k1 = k then (k, v) :: rest else (k1, v1) :: jsSet rest k v

/-- Apply `f` to the document stored under `key` (mutation through the `doc`
reference that `visit` receives). -/
def updateAssoc : List (String × APIDocument) → String → (APIDocument → APIDocument) →
    List (String × APIDocument)
  | [], _, _ => []
  | (k1, d) :: rest, k, f =>
    if k1 = k then (k, f d) :: rest else (k1, d) :: updateAssoc rest k f

def updateDoc (st : ParserState) (key : String) (f : APIDocument → APIDocument) :
    ParserState :=
  { st with documents := updateAssoc st.documents key f }

/-- `writeComment` (lines 411-416): `doc.comment(fixReferences(shortText))` when
`shortText` is truthy, then the same for `text`. -/
def writeComment (E : Externals) (doc : APIDocument) (comment : Option CommentObject) :
    APIDocument :=
  let shortText := comment.bind CommentObject.shortText
  let text := comment.bind CommentObject.text
  let doc :=
    match shortText with
    | some s => if s = "" then doc else doc ++ [DocEntry.comment (E.fixReferences s)]
    | none => doc
  match text with
  | some t => if t = "" then doc else doc ++ [DocEntry.comment (E.fixReferences t)]
  | none => doc

/-- `visitClassComment` (lines 562-575): fold the tags into a `meta` record
(`meta[tag.tag] = tag.text.trim()`, plus `meta.title` for an `@class` tag) and
emit it as frontmatter.  An absent `tags` array returns early; an empty one emits
empty frontmatter (`[]` is truthy in JavaScript). -/
def visitClassComment (c : CommentObject) (doc : APIDocument) : APIDocument :=
  match c.tags with
  | none => doc
  | some tags =>
    let meta := tags.foldl
      (fun meta tag =>
        let meta := jsSet meta tag.tag (jsTrim tag.text)
        if tag.tag = "class" then jsSet meta "title" (jsTrim tag.text) else meta)
      []
    doc ++ [DocEntry.frontmatter meta]

/-- `visitClass` (lines 546-560): return if there is no target document, else
`doc.section(name)`, `writeComment`, and the class-comment frontmatter when the
node has a comment.  The final `if (isNodeOpaque(node)) return` has nothing after
it and therefore no effect. -/
def visitClass (E : Externals) (st : ParserState) (dk : Option String)
    (node : NodeLike) : ParserState :=
  match dk with
  | none => st
  | some key =>
    updateDoc st key (fun doc =>
      let doc := doc ++ [DocEntry.sec (NodeLike.name node)]
      let doc := writeComment E doc (NodeLike.comment node)
      match NodeLike.comment node with
      | some c => visitClassComment c doc
      | none => doc)

/-- The `desc` computed for one parameter (lines 649-654):
`[shortText, text].filter(Boolean).map(fixReferences).join('\n')`. -/
def paramDesc (E : Externals) (comment : Option CommentObject) : String :=
  let shortText := comment.bind CommentObject.shortText
  let text := comment.bind CommentObject.text
  let parts := ([shortText, text].filterMap fun o =>
    match o with
    | some s => if s = "" then none else some s
    | none => none)
  String.intercalate "\n" (parts.map E.fixReferences)

/-- One element of `parameters.map(...)` in `visitCallSignature` (lines 639-658). -/
def paramDoc (E : Externals) (p : Parameter) : ParamDoc :=
  { name := p.name
    type := E.typeToString p.type
    isOptional := p.flags.isOptional.getD false
    isReference := p.type.type = "reference"
    defaultValue := p.defaultValue
    desc := paramDesc E p.comment }

/-- `visitCallSignature` (lines 635-661): return when `signature.parameters` is
absent (an empty array is truthy and proceeds), else
`doc.callSignature(parameters.map(...))`. -/
def visitCallSignature (E : Externals) (st : ParserState) (key : String)
    (sig : CallSignatureType) : ParserState :=
  match sig.parameters with
  | none => st
  | some params =>
    updateDoc st key (fun doc => doc ++ [DocEntry.callSignature (params.map (paramDoc E))])

/-- `visitMethod` (lines 584-633): guarded by `isMethodReflection(node) && doc`,
returns early on `isNodeInternal`, and under the `isCallableNode` type guard
(which certifies that `signatures` is present; an absent field behaves as the
empty array here) visits each call signature in order. -/
def visitMethod (E : Externals) (st : ParserState) (dk : Option String)
    (node : NodeLike) : ParserState :=
  if E.isMethodReflection node then
    match dk with
    | none => st
    | some key =>
      if E.isNodeInternal node then st
      else if E.isCallableNode node then
        ((NodeLike.signatures node).getD []).foldl
          (fun st sig => visitCallSignature E st key sig) st
      else st
  else st

/-- The tags of the `visitors` dispatch table (lines 433-445); `Module`,
`Enumeration`, `Class` and `Interface` all map to `visitClass`. -/
inductive VisitorTag where
  | variableV
  | classV
  | functionV
  | propertyV
  | methodV
  | externalModuleV
  | typeAliasV
  | objectLiteralV
deriving DecidableEq

/-- The `visitors` table (lines 433-445), keyed by `kindString`. -/
def visitorsTable : List (String × VisitorTag) :=
  [("Variable", VisitorTag.variableV),
   ("Module", VisitorTag.classV),
   ("Enumeration", VisitorTag.classV),
   ("Class", VisitorTag.classV),
   ("Interface", VisitorTag.classV),
   ("Function", VisitorTag.functionV),
   ("Property", VisitorTag.propertyV),
   ("Method", VisitorTag.methodV),
   ("External module", VisitorTag.externalModuleV),
   ("Type alias", VisitorTag.typeAliasV),
   ("Object literal", VisitorTag.objectLiteralV)]

/-- `this.visitors[node.kindString]`. -/
def visitorsLookup (k : String) : Option VisitorTag :=
  visitorsTable.lookup k

/-- Dispatch to the visitor bodies.  `visitVariable` (body commented out),
`visitFunction` (a `console.log`), `visitProperty`, `visitAlias`,
`visitExternalModule` and `visitObjectLiteral` (empty bodies, lines 577-583) all
leave the state unchanged. -/
def applyVisitor (E : Externals) (tag : VisitorTag) (st : ParserState)
    (dk : Option String) (node : NodeLike) : ParserState :=
  match tag with
  | VisitorTag.variableV => st
  | VisitorTag.classV => visitClass E st dk node
  | VisitorTag.functionV => st
  | VisitorTag.propertyV => st
  | VisitorTag.methodV => visitMethod E st dk node
  | VisitorTag.externalModuleV => st
  | VisitorTag.typeAliasV => st
  | VisitorTag.objectLiteralV => st

/-- `visit` (lines 535-544): nothing happens without a `kindString`; an unknown
kind only logs `TODO: ...`; otherwise the table's visitor runs. -/
def visit (E : Externals) (st : ParserState) (dk : Option String)
    (node : NodeLike) : ParserState :=
  match NodeLike.kindString node with
  | none => st
  | some k =>
    match visitorsLookup k with
    | none => st
    | some tag => applyVisitor E tag st dk node

/-- `documentForName` (lines 667-670): `this.documents.get(this.index.indexExports[name]) || null`,
expressed as the key of the document it returns. -/
def documentForNameKey (st : ParserState) (name : String) : Option String :=
  match st.indexExports.lookup name with
  | none => none
  | some key => if (st.documents.lookup key).isSome then some key else none

/-- The document switch at the top of `walk` (lines 522-525): a class reflection
whose name maps to a document changes the target document. -/
def walkDocKey (E : Externals) (st : ParserState) (dk : Option String)
    (node : NodeLike) : Option String :=
  if E.isClassReflection node then
    match documentForNameKey st (NodeLike.name node) with
    | some k => some k
    | none => dk
  else dk

/-- Record a visit in the instrumentation trace. -/
def pushTrace (st : ParserState) (nm : String) : ParserState :=
  { st with trace := st.trace ++ [nm] }

mutual
/-- `walk` (lines 517-533): switch the target document, `visit` the node itself,
then recursively walk each child in order (`node.children.forEach`); an absent
`children` field skips the loop, an empty array loops zero times. -/
def walk (E : Externals) (st : ParserState) (dk : Option String)
    (node : NodeLike) : ParserState :=
  match node with
  | NodeLike.mk nm ks cs cm sg =>
    let dk1 := walkDocKey E st dk (NodeLike.mk nm ks cs cm sg)
    let st1 := visit E (pushTrace st nm) dk1 (NodeLike.mk nm ks cs cm sg)
    match cs with
    | none => st1
    | some children => walkList E st1 dk1 children

/-- The `forEach` loop of `walk`, child by child, threading the state. -/
def walkList (E : Externals) (st : ParserState) (dk : Option String)
    (nodes : List NodeLike) : ParserState :=
  match nodes with
  | [] => st
  | c :: rest => walkList E (walk E st dk c) dk rest
end

mutual
/-- Modelled from the spec: the preorder listing of a reflection tree — the node
itself, then the listings of its children in order. -/
def preorderNames : NodeLike → List String
  | NodeLike.mk nm _ cs _ _ =>
    nm :: (match cs with
      | none => []
      | some children => preorderNamesList children)

/-- Modelled from the spec: preorder listing of a forest, left to right. -/
def preorderNamesList : List NodeLike → List String
  | [] => []
  | c :: rest => preorderNames c ++ preorderNamesList rest
end

mutual
/-- Height of a reflection tree (each `walk` call recurses one level deeper). -/
def depth : NodeLike → Nat
  | NodeLike.mk _ _ cs _ _ =>
    (match cs with
     | none => 0
     | some children => depthList children) + 1

def depthList : List NodeLike → Nat
  | [] => 0
  | c :: rest => max (depth c) (depthList rest)
end

mutual
/-- `walk` with an explicit recursion-depth budget: `none` means the budget ran
out.  `walkFuel` witnesses termination: a budget of `depth node` always suffices
(see the C6 theorem). -/
def walkFuel (E : Externals) (st : ParserState) (dk : Option String)
    (node : NodeLike) (fuel : Nat) : Option ParserState :=
  match fuel with
  | 0 => none
  | Nat.succ fuel =>
    match node with
    | NodeLike.mk nm ks cs cm sg =>
      let dk1 := walkDocKey E st dk (NodeLike.mk nm ks cs cm sg)
      let st1 := visit E (pushTrace st nm) dk1 (NodeLike.mk nm ks cs cm sg)
      match cs with
      | none => some st1
      | some children => walkFuelList E st1 dk1 children fuel
termination_by (fuel, 0)

def walkFuelList (E : Externals) (st : ParserState) (dk : Option String)
    (nodes : List NodeLike) (fuel : Nat) : Option ParserState :=
  match nodes with
  | [] => some st
  | c :: rest =>
    match walkFuel E st dk c fuel with
    | none => none
    | some st1 => walkFuelList E st1 dk rest fuel
termination_by (fuel, nodes.length)
end

/-- A concrete instantiation of the external helpers for the C5 witness. -/
def extA : Externals :=
  ⟨fun _ => false, fun _ => false, fun _ => false, fun _ => false, fun _ => false,
   id, fun _ => "t"⟩

/-- A concrete parser state for the C5 witness. -/
def stA : ParserState :=
  ⟨[("docA.md", [])], [("A", "docA.md")], []⟩

/-- A node whose `kindString` (`'Parameter'`) has no entry in the visitors table. -/
def nodeA : NodeLike :=
  NodeLike.mk "p" (some "Parameter") none none none

/-! ## Theorems -/

/-! ### Field-preservation lemmas for the three blocks -/

theorem normWaitTimeout_actionDelay (s : TestSettings) :
    (normWaitTimeout s).actionDelay = s.actionDelay := by
  unfold normWaitTimeout
  split
  · split
    · rfl
    · split
      · rfl
      · rfl
  · rfl

theorem normWaitTimeout_stepDelay (s : TestSettings) :
    (normWaitTimeout s).stepDelay = s.stepDelay := by
  unfold normWaitTimeout
  split
  · split
    · rfl
    · split
      · rfl
      · rfl
  · rfl

theorem normActionDelay_waitTimeout (s : TestSettings) :
    (normActionDelay s).waitTimeout = s.waitTimeout := by
  unfold normActionDelay
  split
  · split
    · rfl
    · split
      · rfl
      · rfl
  · rfl

theorem normActionDelay_stepDelay (s : TestSettings) :
    (normActionDelay s).stepDelay = s.stepDelay := by
  unfold normActionDelay
  split
  · split
    · rfl
    · split
      · rfl
      · rfl
  · rfl

theorem normStepDelay_waitTimeout (s : TestSettings) :
    (normStepDelay s).waitTimeout = s.waitTimeout := by
  unfold normStepDelay
  split
  · split
    · rfl
    · split
      · rfl
      · rfl
  · rfl

/-- The stepDelay block leaves `actionDelay` alone whenever `stepDelay` is not the
literal `0` (the `0` case is the slip that writes `actionDelay`). -/
theorem normStepDelay_actionDelay (s : TestSettings) (h : s.stepDelay ≠ some 0) :
    (normStepDelay s).actionDelay = s.actionDelay := by
  unfold normStepDelay
  split
  next d heq =>
    have h0 : ¬ d = 0 := by
      rintro rfl
      exact h heq
    by_cases h1 : d > 60
    · rw [if_pos h1]
    · rw [if_neg h1, if_neg h0]
  next => rfl

theorem normStepDelay_stepDelay_pos (s : TestSettings) (d : ℚ)
    (hd : s.stepDelay = some d) (h : d > 60) :
    (normStepDelay s).stepDelay = some (d / 1000) := by
  unfold normStepDelay
  rw [hd]
  split
  next d2 heq =>
    injection heq with heq2
    subst heq2
    rw [if_pos h]
  next heq => exact absurd heq (by simp)

theorem normStepDelay_stepDelay_small (s : TestSettings) (d : ℚ)
    (hd : s.stepDelay = some d) (h : ¬ d > 60) :
    (normStepDelay s).stepDelay = some d := by
  unfold normStepDelay
  rw [hd]
  split
  next d2 heq =>
    injection heq with heq2
    subst heq2
    by_cases h0 : d = 0
    · rw [if_neg h, if_pos h0]
    · rw [if_neg h, if_neg h0]
      exact hd
  next heq => exact absurd heq (by simp)

/-- Claim C1: `normalizeSettings` on `waitTimeout = 0` yields `30` and on
`actionDelay = 0` yields `0.5`, but on `stepDelay = 0` the stepDelay branch writes
`actionDelay = 5` and leaves `stepDelay` at `0` — the code contradicts its own
comment (`// Ensure step delay is stored in seconds`) and the claimed defaulting.
The theorem evaluates the embedded code on both a well-behaved input and the
failing input `waitTimeout = 10, actionDelay = 2, stepDelay = 0`. -/
theorem normalizeSettings_stepDelay_branch_eval :
    normalizeSettings ⟨some 0, some 0, some 3, some (-1), some "ua"⟩ =
      ⟨some 30, some DEFAULT_ACTION_WAIT_SECONDS, some 3, some (-1), some "ua"⟩ ∧
    normalizeSettings ⟨some 10, some 2, some 0, some (-1), some "ua"⟩ =
      ⟨some 10, some 5, some 0, some (-1), some "ua"⟩ := by
  constructor <;>
    norm_num [normalizeSettings, normWaitTimeout, normActionDelay, normStepDelay,
      DEFAULT_ACTION_WAIT_SECONDS, DEFAULT_STEP_WAIT_SECONDS]

/-- Claim C4 counterexample: the claim states that an `actionDelay` strictly greater
than `60` is divided by `1000`, for every settings object.  On
`waitTimeout = 10, actionDelay = 100, stepDelay = 0` the final `actionDelay` is `5`
(the stepDelay branch overwrites it), not `100 / 1000 = 0.1`. -/
theorem normalizeSettings_actionDelay_conversion_cex :
    (normalizeSettings ⟨some 10, some 100, some 0, none, none⟩).actionDelay = some 5 ∧
      (5 : ℚ) ≠ 100 / 1000 := by
  constructor <;>
    norm_num [normalizeSettings, normWaitTimeout, normActionDelay, normStepDelay,
      DEFAULT_STEP_WAIT_SECONDS]

/-- Claim C4 (amended): the conversion heuristics hold as claimed for `waitTimeout`
and `stepDelay` on every settings object, and for `actionDelay` on every settings
object whose `stepDelay` is not `0` (when `stepDelay` is `0`, the slip in the
stepDelay branch overwrites `actionDelay` with `5`). -/
theorem normalizeSettings_unit_conversion_amended (s : TestSettings) :
    (∀ w : ℚ, s.waitTimeout = some w →
      (w > 1000 → (normalizeSettings s).waitTimeout = some (w / 1000)) ∧
      (w ≠ 0 → ¬ w > 1000 → (normalizeSettings s).waitTimeout = some w)) ∧
    (∀ d : ℚ, s.stepDelay = some d →
      (d > 60 → (normalizeSettings s).stepDelay = some (d / 1000)) ∧
      (d ≠ 0 → ¬ d > 60 → (normalizeSettings s).stepDelay = some d)) ∧
    (s.stepDelay ≠ some 0 →
      ∀ a : ℚ, s.actionDelay = some a →
        (a > 60 → (normalizeSettings s).actionDelay = some (a / 1000)) ∧
        (a ≠ 0 → ¬ a > 60 → (normalizeSettings s).actionDelay = some a)) := by
  refine ⟨?_, ?_, ?_⟩
  · intro w hw
    have hact : (normalizeSettings s).waitTimeout = (normWaitTimeout s).waitTimeout := by
      unfold normalizeSettings
      rw [normStepDelay_waitTimeout, normActionDelay_waitTimeout]
    constructor
    · intro hgt
      rw [hact]
      unfold normWaitTimeout
      rw [hw]
      simp [hgt]
    · intro hne hle
      rw [hact]
      unfold normWaitTimeout
      rw [hw]
      simp [hne, hle, hw]
  · intro d hd
    have hstep : (normActionDelay (normWaitTimeout s)).stepDelay = some d := by
      rw [normActionDelay_stepDelay, normWaitTimeout_stepDelay, hd]
    constructor
    · intro hgt
      exact normStepDelay_stepDelay_pos _ d hstep hgt
    · intro _ hle
      exact normStepDelay_stepDelay_small _ d hstep hle
  · intro hnz a ha
    have hstep : (normActionDelay (normWaitTimeout s)).stepDelay ≠ some 0 := by
      rw [normActionDelay_stepDelay, normWaitTimeout_stepDelay]
      exact hnz
    have hpres : (normalizeSettings s).actionDelay =
        (normActionDelay (normWaitTimeout s)).actionDelay := by
      unfold normalizeSettings
      exact normStepDelay_actionDelay _ hstep
    have hwa : (normWaitTimeout s).actionDelay = some a := by
      rw [normWaitTimeout_actionDelay, ha]
    constructor
    · intro hgt
      rw [hpres]
      unfold normActionDelay
      rw [hwa]
      simp [hgt]
    · intro hne hle
      rw [hpres]
      unfold normActionDelay
      rw [hwa]
      simp [hne, hle, hwa]

/-- Witness for the amended C4 theorem at
`waitTimeout = 2000, actionDelay = 100, stepDelay = 70`: all three settings were
given in milliseconds and all three are divided by `1000`. -/
theorem normalizeSettings_unit_conversion_amended_witness :
    (normalizeSettings ⟨some 2000, some 100, some 70, none, none⟩).waitTimeout = some 2 ∧
    (normalizeSettings ⟨some 2000, some 100, some 70, none, none⟩).stepDelay =
      some (7 / 100) ∧
    (normalizeSettings ⟨some 2000, some 100, some 70, none, none⟩).actionDelay =
      some (1 / 10) := by
  have h := normalizeSettings_unit_conversion_amended ⟨some 2000, some 100, some 70, none, none⟩
  refine ⟨?_, ?_, ?_⟩
  · have hr := (h.1 2000 rfl).1 (by norm_num)
    rw [hr]
    norm_num
  · have hr := (h.2.1 70 rfl).1 (by norm_num)
    rw [hr]
    norm_num
  · have hr := (h.2.2 (by norm_num) 100 rfl).1 (by norm_num)
    rw [hr]
    norm_num

/-- Claim C2: with zero interpreters — how `focus`, `blur`, `clear`, `sendKeys`,
`type` and `takeScreenshot` are decorated (`@wrapDescriptiveError()`) — a failing
underlying operation makes the wrapper itself throw
`TypeError: errorInterpreters[0] is not a function` instead of a contextual
rewrapped error; a succeeding operation passes through unchanged, and the
underlying operation runs exactly once (the state advances by one application). -/
theorem wrapCall_no_interpreter_eval :
    wrapCall ([] : List ErrorInterpreter) "<element-handle>" "focus"
        (fun n : Nat =>
          (n + 1, (Except.error (JSError.error "focus failed") : Except JSError Unit))) 0 =
      (1, Except.error (JSError.typeError "errorInterpreters[0] is not a function")) ∧
    wrapCall ([] : List ErrorInterpreter) "<element-handle>" "focus"
        (fun n : Nat => (n + 1, (Except.ok () : Except JSError Unit))) 0 =
      (1, Except.ok ()) := by
  constructor <;> rfl

/-- Claim C3: whenever the underlying `click` throws `e`, the decorated
`ElementHandle.click` throws the `DocumentedError`
`"Unable to click <errorString> as it is no longer in the DOM"` (with the
user-facing explanation body) when `e.message` contains
`'Node is detached from document'`, and
`DocumentedError.wrapUnhandledError` with message
`"Unable to click selector <errorString>"` otherwise. -/
theorem click_error_rewrapping {σ : Type} (op : σ → σ × Except JSError Unit) (s : σ)
    (e : JSError) (es : String) (h : (op s).2 = Except.error e) :
    (clickCall es op s).2 =
      Except.error
        (if jsIncludes (jsMessage e) "Node is detached from document" then
          JSError.documented ("Unable to click " ++ es ++ " as it is no longer in the DOM")
            (detachedBody "click") (es ++ "." ++ "click") e
        else
          JSError.wrapUnhandled e ("Unable to click selector " ++ es)
            (es ++ "." ++ "click")) := by
  unfold clickCall wrapCall domError
  rcases hos : op s with ⟨s1, r⟩
  rw [hos] at h
  simp only [] at h
  subst h
  simp

/-- Witness for C3 at a concrete detached-node error. -/
theorem click_error_rewrapping_witness :
    (clickCall "<button>"
        (fun n : Nat =>
          (n, Except.error (JSError.error "Error: Node is detached from document")))
        0).2 =
      Except.error
        (JSError.documented "Unable to click <button> as it is no longer in the DOM"
          (detachedBody "click") "<button>.click"
          (JSError.error "Error: Node is detached from document")) := by
  have h := click_error_rewrapping
    (fun n : Nat =>
      (n, Except.error (JSError.error "Error: Node is detached from document")))
    0 (JSError.error "Error: Node is detached from document") "<button>" rfl
  rw [h, if_pos (by decide)]
  simp

/-- Claim C7: `ElementHandle` is the identity locator: `find` resolves to the
handle itself (never null) and `findMany` to exactly `[this]`, for every context
and node argument. -/
theorem find_findMany_identity {γ ν : Type} (h : ElementHandle) (c : γ) (n : Option ν) :
    ElementHandle.find h c n = some h ∧ ElementHandle.findMany h c n = [h] :=
  ⟨rfl, rfl⟩

/-- Claim C8: `isSelected` resolves to `true` for every element and never throws
the `'Element is not selectable'` error: the guard negates the promise object
rather than its resolved value, and the property value is coerced without being
awaited. -/
theorem isSelected_always_true (h : ElementHandle) :
    ElementHandle.isSelected h = Except.ok true := by
  rfl

/-- Claim C9: `isSelectable` resolves to `true` exactly when the tag name is
`'OPTION'`; in particular it resolves to `false` for every `INPUT` element,
because the lowercased tag name `'input'` never equals `'checkbox'` or `'radio'`. -/
theorem isSelectable_iff_option (h : ElementHandle) :
    (ElementHandle.isSelectable h = true ↔ ElementHandle.tagName h = some "OPTION") ∧
    (ElementHandle.tagName h = some "INPUT" → ElementHandle.isSelectable h = false) := by
  constructor
  · unfold ElementHandle.isSelectable
    cases ht : ElementHandle.tagName h with
    | none => simp
    | some t =>
      by_cases h1 : t = "OPTION"
      · subst h1
        simp
      · by_cases h2 : t = "INPUT"
        · subst h2
          simp only [h1]
          decide
        · simp [h1, h2]
  · intro ht
    unfold ElementHandle.isSelectable
    rw [ht]
    decide

/-- Witness for the `INPUT` part of C9: a checkbox-bearing `INPUT` element is not
selectable, and an `OPTION` element is. -/
theorem isSelectable_iff_option_witness :
    ElementHandle.isSelectable ⟨⟨some "INPUT", none⟩, "<element-handle>"⟩ = false ∧
    ElementHandle.isSelectable ⟨⟨some "OPTION", none⟩, "<element-handle>"⟩ = true :=
  ⟨(isSelectable_iff_option ⟨⟨some "INPUT", none⟩, "<element-handle>"⟩).2 rfl,
   (isSelectable_iff_option ⟨⟨some "OPTION", none⟩, "<element-handle>"⟩).1.mpr rfl⟩

/-- Claim C10: when the underlying `boundingBox()` resolves to `null`,
`isDisplayed` resolves to `false`, `size` to `{width: 0, height: 0}` and
`location` to `{x: 0, y: 0}`, and none of the three throws. -/
theorem null_boundingBox_defaults (h : ElementHandle)
    (hb : h.element.boundingBox = none) :
    ElementHandle.isDisplayed h = Except.ok false ∧
    ElementHandle.size h = Except.ok ⟨0, 0⟩ ∧
    ElementHandle.location h = Except.ok ⟨0, 0⟩ := by
  refine ⟨?_, ?_, ?_⟩
  · unfold ElementHandle.isDisplayed
    rw [hb]
    rfl
  · unfold ElementHandle.size
    rw [hb]
  · unfold ElementHandle.location
    rw [hb]

/-- Witness for C10 at a concrete handle with no bounding box. -/
theorem null_boundingBox_defaults_witness :
    ElementHandle.isDisplayed ⟨⟨some "DIV", none⟩, "<element-handle>"⟩ =
        Except.ok false ∧
    ElementHandle.size ⟨⟨some "DIV", none⟩, "<element-handle>"⟩ = Except.ok ⟨0, 0⟩ ∧
    ElementHandle.location ⟨⟨some "DIV", none⟩, "<element-handle>"⟩ =
        Except.ok ⟨0, 0⟩ :=
  null_boundingBox_defaults ⟨⟨some "DIV", none⟩, "<element-handle>"⟩ rfl

/-! ### Trace lemmas: `visit` never touches the instrumentation trace -/

theorem updateDoc_trace (st : ParserState) (key : String) (f : APIDocument → APIDocument) :
    (updateDoc st key f).trace = st.trace :=
  rfl

theorem visitCallSignature_trace (E : Externals) (st : ParserState) (key : String)
    (sig : CallSignatureType) :
    (visitCallSignature E st key sig).trace = st.trace := by
  unfold visitCallSignature
  split
  · rfl
  · rfl

theorem foldSigs_trace (E : Externals) (key : String) :
    ∀ (sigs : List CallSignatureType) (st : ParserState),
      (sigs.foldl (fun st sig => visitCallSignature E st key sig) st).trace = st.trace := by
  intro sigs
  induction sigs with
  | nil => intro st; rfl
  | cons sig rest ih =>
    intro st
    simp only [List.foldl_cons]
    rw [ih, visitCallSignature_trace]

theorem visitMethod_trace (E : Externals) (st : ParserState) (dk : Option String)
    (node : NodeLike) :
    (visitMethod E st dk node).trace = st.trace := by
  unfold visitMethod
  split
  · split
    · rfl
    · split
      · rfl
      · split
        · exact foldSigs_trace E _ _ st
        · rfl
  · rfl

theorem visitClass_trace (E : Externals) (st : ParserState) (dk : Option String)
    (node : NodeLike) :
    (visitClass E st dk node).trace = st.trace := by
  unfold visitClass
  split
  · rfl
  · rfl

theorem visit_trace (E : Externals) (st : ParserState) (dk : Option String)
    (node : NodeLike) :
    (visit E st dk node).trace = st.trace := by
  unfold visit
  split
  · rfl
  · split
    · rfl
    next tag heq2 =>
      cases tag
      case classV => exact visitClass_trace E st dk node
      case methodV => exact visitMethod_trace E st dk node
      all_goals rfl

/-! ### `walk` visits in preorder and terminates within `depth` recursion budget -/

theorem walk_trace_key : ∀ (n : Nat),
    (∀ (node : NodeLike), sizeOf node ≤ n → ∀ (E : Externals) (st : ParserState)
        (dk : Option String),
      (walk E st dk node).trace = st.trace ++ preorderNames node) ∧
    (∀ (nodes : List NodeLike), sizeOf nodes ≤ n → ∀ (E : Externals) (st : ParserState)
        (dk : Option String),
      (walkList E st dk nodes).trace = st.trace ++ preorderNamesList nodes) := by
  intro n
  induction n using Nat.strong_induction_on with
  | _ n ih =>
    constructor
    · intro node hsz E st dk
      cases node with
      | mk nm ks cs cm sg =>
        cases cs with
        | none =>
          simp only [walk, preorderNames]
          rw [visit_trace]
          simp [pushTrace]
        | some children =>
          have hlt : sizeOf children < n := by
            simp only [NodeLike.mk.sizeOf_spec, Option.some.sizeOf_spec] at hsz
            omega
          simp only [walk, preorderNames]
          rw [(ih (sizeOf children) hlt).2 children le_rfl E _ _]
          rw [visit_trace]
          simp [pushTrace]
    · intro nodes hsz E st dk
      cases nodes with
      | nil => simp [walkList, preorderNamesList]
      | cons c rest =>
        have hc : sizeOf c < n := by
          simp only [List.cons.sizeOf_spec] at hsz
          omega
        have hrest : sizeOf rest < n := by
          simp only [List.cons.sizeOf_spec] at hsz
          omega
        simp only [walkList, preorderNamesList]
        rw [(ih (sizeOf rest) hrest).2 rest le_rfl E _ _,
          (ih (sizeOf c) hc).1 c le_rfl E _ _]
        simp [List.append_assoc]

theorem depth_mk_none (nm : String) (ks : Option String)
    (cm : Option CommentObject) (sg : Option (List CallSignatureType)) :
    depth (NodeLike.mk nm ks none cm sg) = 1 := by
  rw [depth.eq_def]

theorem depth_mk_some (nm : String) (ks : Option String) (children : List NodeLike)
    (cm : Option CommentObject) (sg : Option (List CallSignatureType)) :
    depth (NodeLike.mk nm ks (some children) cm sg) = depthList children + 1 := by
  rw [depth.eq_def]

theorem depthList_cons (c : NodeLike) (rest : List NodeLike) :
    depthList (c :: rest) = max (depth c) (depthList rest) := by
  rw [depthList.eq_def]

theorem depth_pos (node : NodeLike) : 1 ≤ depth node := by
  cases node with
  | mk nm ks cs cm sg =>
    cases cs with
    | none => rw [depth_mk_none]
    | some children =>
      rw [depth_mk_some]
      omega

theorem walkFuel_succ_none (E : Externals) (st : ParserState) (dk : Option String)
    (nm : String) (ks : Option String) (cm : Option CommentObject)
    (sg : Option (List CallSignatureType)) (fuel : Nat) :
    walkFuel E st dk (NodeLike.mk nm ks none cm sg) (fuel + 1) =
      some (visit E (pushTrace st nm)
        (walkDocKey E st dk (NodeLike.mk nm ks none cm sg))
        (NodeLike.mk nm ks none cm sg)) := by
  rw [walkFuel.eq_def]

theorem walkFuel_succ_some (E : Externals) (st : ParserState) (dk : Option String)
    (nm : String) (ks : Option String) (children : List NodeLike)
    (cm : Option CommentObject) (sg : Option (List CallSignatureType)) (fuel : Nat) :
    walkFuel E st dk (NodeLike.mk nm ks (some children) cm sg) (fuel + 1) =
      walkFuelList E
        (visit E (pushTrace st nm)
          (walkDocKey E st dk (NodeLike.mk nm ks (some children) cm sg))
          (NodeLike.mk nm ks (some children) cm sg))
        (walkDocKey E st dk (NodeLike.mk nm ks (some children) cm sg))
        children fuel := by
  rw [walkFuel.eq_def]

theorem walkFuelList_nil (E : Externals) (st : ParserState) (dk : Option String)
    (fuel : Nat) :
    walkFuelList E st dk [] fuel = some st := by
  rw [walkFuelList.eq_def]

theorem walkFuelList_cons_some (E : Externals) (st : ParserState) (dk : Option String)
    (c : NodeLike) (rest : List NodeLike) (fuel : Nat) (st1 : ParserState)
    (h : walkFuel E st dk c fuel = some st1) :
    walkFuelList E st dk (c :: rest) fuel = walkFuelList E st1 dk rest fuel := by
  rw [walkFuelList.eq_def]
  simp only [h]

theorem walkFuel_spec : ∀ (fuel : Nat),
    (∀ (node : NodeLike), depth node ≤ fuel → ∀ (E : Externals) (st : ParserState)
        (dk : Option String),
      walkFuel E st dk node fuel = some (walk E st dk node)) ∧
    (∀ (nodes : List NodeLike), depthList nodes ≤ fuel → ∀ (E : Externals)
        (st : ParserState) (dk : Option String),
      walkFuelList E st dk nodes fuel = some (walkList E st dk nodes)) := by
  intro fuel
  induction fuel with
  | zero =>
    constructor
    · intro node hd
      exfalso
      have h1 := depth_pos node
      omega
    · intro nodes hd E st dk
      cases nodes with
      | nil =>
        rw [walkFuelList_nil]
        simp only [walkList]
      | cons c rest =>
        exfalso
        rw [depthList_cons, Nat.max_le] at hd
        have h1 := depth_pos c
        omega
  | succ fuel ih =>
    have hQ : ∀ (node : NodeLike), depth node ≤ fuel + 1 → ∀ (E : Externals)
        (st : ParserState) (dk : Option String),
        walkFuel E st dk node (fuel + 1) = some (walk E st dk node) := by
      intro node hd E st dk
      cases node with
      | mk nm ks cs cm sg =>
        cases cs with
        | none =>
          rw [walkFuel_succ_none]
          simp only [walk]
        | some children =>
          have hdc : depthList children ≤ fuel := by
            rw [depth_mk_some] at hd
            omega
          rw [walkFuel_succ_some]
          simp only [walk]
          exact ih.2 children hdc E _ _
    refine ⟨hQ, ?_⟩
    intro nodes
    induction nodes with
    | nil =>
      intro _ E st dk
      rw [walkFuelList_nil]
      simp only [walkList]
    | cons c rest ihr =>
      intro hd E st dk
      rw [depthList_cons, Nat.max_le] at hd
      rw [walkFuelList_cons_some E st dk c rest (fuel + 1) (walk E st dk c)
        (hQ c hd.1 E st dk)]
      simp only [walkList]
      exact ihr hd.2 E (walk E st dk c) dk

/-- Claim C6: `walk` is a preorder traversal — every walk visits the node itself
(with the target document switched per `walkDocKey` when the node is a class
reflection whose name maps to a document) and then walks the children in order,
the sequence of visited nodes is exactly the preorder listing of the tree, and
`walk` terminates on every finite tree: a recursion budget of `depth node` always
suffices. -/
theorem walk_preorder_terminates (E : Externals) (st : ParserState)
    (dk : Option String) (node : NodeLike) :
    (walk E st dk node).trace = st.trace ++ preorderNames node ∧
    walkFuel E st dk node (depth node) = some (walk E st dk node) ∧
    walk E st dk node =
      walkList E
        (visit E (pushTrace st (NodeLike.name node)) (walkDocKey E st dk node) node)
        (walkDocKey E st dk node) ((NodeLike.children node).getD []) := by
  refine ⟨(walk_trace_key (sizeOf node)).1 node le_rfl E st dk,
          (walkFuel_spec (depth node)).1 node le_rfl E st dk, ?_⟩
  cases node with
  | mk nm ks cs cm sg =>
    cases cs with
    | none => rfl
    | some children => rfl

/-- Claim C5: `visit` dispatches on the node's `kindString` through the fixed
eleven-entry visitors table, and for every node whose `kindString` is absent or
has no entry in the table, `visit` returns the state unchanged — in particular no
document is mutated — and does not fail. -/
theorem visit_dispatch_table :
    (visitorsLookup "Variable" = some VisitorTag.variableV ∧
     visitorsLookup "Module" = some VisitorTag.classV ∧
     visitorsLookup "Enumeration" = some VisitorTag.classV ∧
     visitorsLookup "Class" = some VisitorTag.classV ∧
     visitorsLookup "Interface" = some VisitorTag.classV ∧
     visitorsLookup "Function" = some VisitorTag.functionV ∧
     visitorsLookup "Property" = some VisitorTag.propertyV ∧
     visitorsLookup "Method" = some VisitorTag.methodV ∧
     visitorsLookup "External module" = some VisitorTag.externalModuleV ∧
     visitorsLookup "Type alias" = some VisitorTag.typeAliasV ∧
     visitorsLookup "Object literal" = some VisitorTag.objectLiteralV) ∧
    ∀ (E : Externals) (st : ParserState) (dk : Option String) (node : NodeLike),
      (∀ k, NodeLike.kindString node = some k → visitorsLookup k = none) →
      visit E st dk node = st := by
  constructor
  · decide
  · intro E st dk node h
    cases node with
    | mk nm ks cs cm sg =>
      cases ks with
      | none => rfl
      | some k =>
        have hnone : visitorsLookup k = none := h k rfl
        simp only [visit, NodeLike.kindString]
        rw [hnone]

/-- Witness for C5: visiting a `'Parameter'` node leaves the state untouched. -/
theorem visit_dispatch_table_witness : visit extA stA none nodeA = stA :=
  visit_dispatch_table.2 extA stA none nodeA (fun k hk => by
    cases Option.some.inj hk
    decide)
